import Mathlib

/-!
Shallow embedding of the Medical-Care-API core: the authentication
middleware (src/middleware/auth.js), the role gate, the token issuance
sites (src/routes/auth.js) and the appointment routes
(src/routes/appointments.js).  Database tables are modelled as lists of
rows; parameterized SQL queries become list lookups; the JavaScript
request/response cycle becomes explicit values.
-/

namespace MedCare

/-- A JavaScript value as far as the middleware needs one: the fields it
stores on `req.user` are numbers and strings.  A missing property reads
as `Option.none` (JavaScript `undefined`). -/
inductive JsVal where
  | num : Nat → JsVal
  | str : String → JsVal
  deriving DecidableEq, Repr

/-- A JavaScript object is an association list of named fields; reading an
absent field yields `none`, the embedding of `undefined`. -/
def jsGet (obj : List (String × JsVal)) (k : String) : Option JsVal :=
  (obj.find? (fun p => p.1 == k)).map (fun p => p.2)

/-- Split a character list at every occurrence of the separator;
structural version of the JavaScript `split` for a one-character
separator.  Never returns the empty list. -/
def splitChar (sep : Char) : List Char → List (List Char)
  | [] => [[]]
  | a :: t =>
    match splitChar sep t with
    | [] => [[]]
    | h :: r => if a = sep then [] :: h :: r else (a :: h) :: r

/-- JavaScript `s.split(sep)` for the one-character separators the source
uses (`" "`, `"T"`, `":"`). -/
def jsSplit (s : String) (sep : Char) : List String :=
  (splitChar sep s.data).map String.mk

/-- Row of the `Users` table as selected by the middleware:
`SELECT id, email, name, type FROM Users WHERE id = ?`. -/
structure UserRow where
  id : Nat
  email : String
  name : String
  type : String
  deriving DecidableEq, Repr

/-- Payload of a verified JWT as the source signs it (src/routes/auth.js):
`{ userId, email, type }`. -/
structure TokenPayload where
  userId : Nat
  email : String
  type : String
  deriving DecidableEq, Repr

/-- Outcome of `jwt.verify`: success with the decoded payload, or a thrown
error distinguished by `error.name` exactly as the catch block of
`authenticateToken` does. -/
inductive VerifyResult where
  | ok : TokenPayload → VerifyResult
  | errJsonWebToken : VerifyResult
  | errExpired : VerifyResult
  | errOther : VerifyResult
  deriving DecidableEq, Repr

/-- Outcome of the middleware: an early HTTP response (status, message), or
`next()` with the object assigned to `req.user`. -/
inductive AuthResult where
  | resp : Nat → String → AuthResult
  | ok : List (String × JsVal) → AuthResult
  deriving DecidableEq, Repr

/-- The object assigned to `req.user` on success (src/middleware/auth.js
lines 34-39): built from the re-fetched row, with fields
`userId`, `email`, `name`, `type`. -/
def mkUserCtx (u : UserRow) : List (String × JsVal) :=
  [("userId", JsVal.num u.id), ("email", JsVal.str u.email),
   ("name", JsVal.str u.name), ("type", JsVal.str u.type)]

/-- The middleware `authenticateToken` (src/middleware/auth.js).  The token is
`authHeader.split(" ")[2]`; when the header is absent, `authHeader` is
`undefined` and the property access throws a `TypeError`, which the catch
block maps to the generic 500 response (its `error.name` is neither
`JsonWebTokenError` nor `TokenExpiredError`).  An extracted token that is
`undefined` or the empty string is falsy and yields the 401
`Access token required` response before any verification. -/
def authenticateToken (authHeader : Option String)
    (verify : String → VerifyResult) (users : List UserRow) : AuthResult :=
  match authHeader with
  | none => AuthResult.resp 500 "Authentication error"
  | some h =>
    match (jsSplit h ' ')[2]? with
    | none => AuthResult.resp 401 "Access token required"
    | some token =>
      if token.data.isEmpty then AuthResult.resp 401 "Access token required"
      else
        match verify token with
        | VerifyResult.errJsonWebToken => AuthResult.resp 401 "Invalid token"
        | VerifyResult.errExpired => AuthResult.resp 401 "Token expired"
        | VerifyResult.errOther => AuthResult.resp 500 "Authentication error"
        | VerifyResult.ok payload =>
          match users.find? (fun u => u.id == payload.userId) with
          | none => AuthResult.resp 401 "User not found"
          | some u => AuthResult.ok (mkUserCtx u)

/-- Outcome of the role gate: pass to the next handler, or a 403 response. -/
inductive AuthzResult where
  | ok : AuthzResult
  | forbidden : Nat → AuthzResult
  deriving DecidableEq, Repr

/-- Modelled from the spec: `authorizeRoles` is imported by every route file
from `../middleware/auth.js`, but no definition of it appears in the
available sources (the middleware file only defines and exports
`authenticateToken`).  The spec describes the Role Gate as a pure
predicate: `authorize(context, allowedRoles)` succeeds iff
`context.role ∈ allowedRoles`, and otherwise fails with `Forbidden`
(HTTP 403). -/
def authorize (role : String) (allowedRoles : List String) : AuthzResult :=
  if allowedRoles.contains role then AuthzResult.ok
  else AuthzResult.forbidden 403

/-- Lifetime of a token minted at registration (src/routes/auth.js,
`jwt.sign(..., \x7b expiresIn: "7d" \x7d)`), in seconds. -/
def registerTokenExpiresInSeconds : Nat := 7 * 24 * 60 * 60

/-- Lifetime of a token minted at login (src/routes/auth.js,
`jwt.sign(..., \x7b expiresIn: "24h" \x7d)`), in seconds. -/
def loginTokenExpiresInSeconds : Nat := 24 * 60 * 60

/-- A signed token as issued by the two `jwt.sign` call sites: the payload
claims plus issued-at and expiry instants. -/
structure IssuedToken where
  userId : Nat
  email : String
  type : String
  iat : Nat
  exp : Nat
  deriving DecidableEq, Repr

/-- The call `jwt.sign(payload, secret, \x7b expiresIn \x7d)`: the expiry is the
issuing instant plus the configured lifetime. -/
def signToken (userId : Nat) (email type : String) (iat expiresIn : Nat) :
    IssuedToken :=
  ⟨userId, email, type, iat, iat + expiresIn⟩

/-- Token minted by `POST /api/auth/register` (src/routes/auth.js). -/
def registerToken (userId : Nat) (email type : String) (iat : Nat) :
    IssuedToken :=
  signToken userId email type iat registerTokenExpiresInSeconds

/-- Token minted by `POST /api/auth/login` (src/routes/auth.js). -/
def loginToken (userId : Nat) (email type : String) (iat : Nat) :
    IssuedToken :=
  signToken userId email type iat loginTokenExpiresInSeconds

/-- The `expiresIn` arguments of every `jwt.sign` call in the sources:
the registration site uses `"7d"`, the login site uses `"24h"`, and there
are no other call sites. -/
def tokenLifetimesUsed : List Nat :=
  [registerTokenExpiresInSeconds, loginTokenExpiresInSeconds]

/-- Row of the `doctors` table with the columns the appointment routes
touch: `id, user_id, name, specialization, email, open_hour, close_hour,
is_active`.  Hour columns are the stored strings (for example `"09:00:00"`),
parsed by the handler with `parseInt(s.split(":")[0])`. -/
structure DoctorRow where
  id : Nat
  user_id : Nat
  name : String
  specialization : String
  email : String
  open_hour : String
  close_hour : String
  is_active : Bool
  deriving DecidableEq, Repr

/-- Row of the `Appointments` table with the columns the routes touch. -/
structure ApptRow where
  id : Nat
  patient_id : Nat
  doctor_id : Nat
  appointment_date : String
  reason : String
  status : String
  notes : Option String
  deriving DecidableEq, Repr

/-- Value of a list of decimal digits, most significant first. -/
def digitsVal (acc : Nat) : List Char → Nat
  | [] => acc
  | c :: t => digitsVal (acc * 10 + (c.toNat - 48)) t

/-- JavaScript `parseInt` restricted to the decimal strings the handler
feeds it: the longest digit prefix, or `none` for `NaN` when the string
does not start with a digit. -/
def parseIntJS (s : String) : Option Nat :=
  let digits := s.data.takeWhile Char.isDigit
  if digits.isEmpty then none else some (digitsVal 0 digits)

/-- JavaScript `<` on possibly-`NaN` numbers: any comparison with `NaN`
is false. -/
def jsLt : Option Nat → Option Nat → Bool
  | some a, some b => a < b
  | _, _ => false

/-- JavaScript `>=` on possibly-`NaN` numbers: any comparison with `NaN`
is false. -/
def jsGe : Option Nat → Option Nat → Bool
  | some a, some b => b ≤ a
  | _, _ => false

/-- The expression `appointment_date.split("T")[1]`: `none` embeds
`undefined` (no `T` in the string), in which case the subsequent
`.split(":")` throws. -/
def timePart (s : String) : Option String := (jsSplit s 'T')[1]?

/-- First element of a split result (a split never returns the empty
list, so the default is unreachable); the JavaScript index 0. -/
def headStr : List String → String
  | [] => ""
  | a :: _ => a

/-- Hour component the handler computes:
`parseInt(appointment_date.split("T")[1].split(":")[0])`, applied to the
part after the `T`. -/
def hourOf (tp : String) : Option Nat :=
  parseIntJS (headStr (jsSplit tp ':'))

/-- Condition of the query
`SELECT id FROM appointments WHERE doctor_id = ? AND appointment_date = ?
AND status != "cancelled"` on one row. -/
def doctorSlotConflict (doctor_id : Nat) (date : String) (a : ApptRow) :
    Bool :=
  a.doctor_id == doctor_id && a.appointment_date == date &&
    a.status != "cancelled"

/-- Condition of the query
`SELECT id FROM appointments WHERE patient_id = ? AND appointment_date = ?
AND status != "cancelled"` on one row. -/
def patientSlotConflict (patient_id : Nat) (date : String) (a : ApptRow) :
    Bool :=
  a.patient_id == patient_id && a.appointment_date == date &&
    a.status != "cancelled"

/-- Largest appointment id in the table; the auto-increment id of a fresh
insert is modelled as `maxApptId db + 1`. -/
def maxApptId (db : List ApptRow) : Nat :=
  db.foldr (fun r m => max r.id m) 0

/-- The row returned by the enrichment query after the insert:
the appointment columns joined (LEFT JOIN) with patient display fields
from `users` and doctor display fields from `doctors`. -/
structure EnrichedAppt where
  id : Nat
  patient_id : Nat
  doctor_id : Nat
  appointment_date : String
  status : String
  notes : Option String
  patient_name : Option String
  patient_email : Option String
  doctor_name : Option String
  doctor_specialization : Option String
  doctor_email : Option String
  deriving DecidableEq, Repr

/-- Result of the booking handler: HTTP status, message, the
`Appointments` table after the call, and the response payload. -/
structure BookResult where
  status : Nat
  message : String
  db : List ApptRow
  data : Option EnrichedAppt
  deriving DecidableEq, Repr

/-- The JavaScript value of `req.body.appointment_date` when the handler
body runs.  The route declares
`body("appointment_date").isISO8601().toDate()` and express-validator
sanitizers persist into `req.body`, so in the source the field is a Date
object (`dateObj`, carrying its timestamp).  `str` is the raw-string
shape the rest of the handler code was written for. -/
inductive BodyDate where
  | str : String → BodyDate
  | dateObj : Int → BodyDate
  deriving DecidableEq, Repr

/-- A string-method call such as `.split` on the body value: only a string
supports it; on a Date object the access yields undefined and the call
throws a TypeError (embedded as `none`), which the handler catch maps to
the generic 500 response. -/
def asString : BodyDate → Option String
  | BodyDate.str s => some s
  | BodyDate.dateObj _ => none

/-- Numeric content of a possibly-absent JavaScript value, as a SQL bind
parameter: `none` is `undefined`, which mysql2 refuses to bind (the
execute call throws, mapped to the 500 response by the handler catch). -/
def jsNum : Option JsVal → Option Nat
  | some (JsVal.num n) => some n
  | _ => none

/-- The handler `POST /` of src/routes/appointments.js (lines 104-221)
after input validation, parameterized by the current instant `now`, the
timestamp `dateValue` of `new Date(template of appointment_date)`
(stringify-and-reparse keeps the instant up to sub-second truncation),
the value `patient_id` that the handler reads from `req.user.id` (absent
is `none`), and the sanitized body value `appointment_date`.  The checks
run in source order: doctor lookup, future date, then
`appointment_date.split("T")` (a TypeError on a Date object, 500), the
hour window, the doctor-slot query, then the patient-slot query whose
bind of an undefined `patient_id` throws (500); on success the row is
inserted with status `scheduled` and re-selected joined with display
fields. -/
def bookAppointment (now dateValue : Int) (patient_id : Option Nat)
    (doctors : List DoctorRow) (users : List UserRow) (db : List ApptRow)
    (doctor_id : Nat) (appointment_date : BodyDate) (reason : String) :
    BookResult :=
  match doctors.find? (fun d => d.id == doctor_id && d.is_active) with
  | none => ⟨404, "Doctor not found", db, none⟩
  | some doctor =>
    if dateValue ≤ now then
      ⟨400, "Appointment must be scheduled for a future date", db, none⟩
    else
      match asString appointment_date with
      | none => ⟨500, "Failed to book appointment", db, none⟩
      | some ds =>
        match timePart ds with
        | none => ⟨500, "Failed to book appointment", db, none⟩
        | some tp =>
          let appointmentHour := hourOf tp
          let openHour := parseIntJS (headStr (jsSplit doctor.open_hour ':'))
          let closeHour := parseIntJS (headStr (jsSplit doctor.close_hour ':'))
          if jsLt appointmentHour openHour ||
              jsGe appointmentHour closeHour then
            ⟨400, "Appointment time must be within doctor's working hours",
             db, none⟩
          else if db.any (doctorSlotConflict doctor_id ds) then
            ⟨400, "This time slot is already booked", db, none⟩
          else
            match patient_id with
            | none => ⟨500, "Failed to book appointment", db, none⟩
            | some pid =>
              if db.any (patientSlotConflict pid ds) then
                ⟨400, "You already have an appointment at this time", db,
                 none⟩
              else
                let newId := maxApptId db + 1
                let row : ApptRow :=
                  ⟨newId, pid, doctor_id, ds, reason, "scheduled", none⟩
                let db2 := db ++ [row]
                match db2.find? (fun a => a.id == newId) with
                | none => ⟨201, "Appointment booked successfully", db2, none⟩
                | some a =>
                  let p := users.find? (fun u => u.id == a.patient_id)
                  let d := doctors.find? (fun x => x.id == a.doctor_id)
                  ⟨201, "Appointment booked successfully", db2,
                   some ⟨a.id, a.patient_id, a.doctor_id, a.appointment_date,
                         a.status, a.notes,
                         p.map (fun u => u.name), p.map (fun u => u.email),
                         d.map (fun x => x.name),
                         d.map (fun x => x.specialization),
                         d.map (fun x => x.email)⟩⟩

/-- A bare HTTP response: status code and message. -/
structure Resp where
  status : Nat
  message : String
  deriving DecidableEq, Repr

/-- The handler `PUT /:id` of src/routes/appointments.js (lines 224-248):
the generic status update.  It accepts any of `scheduled`, `completed`,
`canceled`, updates every row with the given id with no check of the
current status, and reports 404 when no row was affected. -/
def updateStatus (db : List ApptRow) (idp : Nat) (status : Option String) :
    Resp × List ApptRow :=
  match status with
  | none => (⟨400, "Invalid status provided."⟩, db)
  | some s =>
    if !(["scheduled", "completed", "canceled"].contains s) then
      (⟨400, "Invalid status provided."⟩, db)
    else
      let db2 := db.map (fun r => if r.id == idp then { r with status := s } else r)
      if db.countP (fun r => r.id == idp) == 0 then
        (⟨404, "Appointment not found"⟩, db)
      else
        (⟨200, "Appointment status updated successfully"⟩, db2)

/-- The handler `PUT /:id/cancel` of src/routes/appointments.js
(lines 251-338), parameterized by the values the handler reads as
`req.user.role` and `req.user.id`.  Checks run in source order: existence,
terminal status (`cancelled`, then `completed`), patient ownership, doctor
assignment (via the `doctors` table), then the update to `cancelled` with
the optional reason stored into `notes` when truthy. -/
def cancelAppointment (db : List ApptRow) (doctors : List DoctorRow)
    (callerRole : String) (callerId : Nat) (idp : Nat)
    (reason : Option String) : Resp × List ApptRow :=
  match db.find? (fun a => a.id == idp) with
  | none => (⟨404, "Appointment not found"⟩, db)
  | some appt =>
    if appt.status == "cancelled" then
      (⟨400, "Appointment is already cancelled"⟩, db)
    else if appt.status == "completed" then
      (⟨400, "Cannot cancel completed appointment"⟩, db)
    else if callerRole == "patient" && appt.patient_id != callerId then
      (⟨403, "Access denied. You can only cancel your own appointments."⟩, db)
    else if callerRole == "doctor" &&
        (doctors.find? (fun d => d.id == appt.doctor_id && d.user_id == callerId)).isNone then
      (⟨403, "Access denied. You can only cancel your own appointments."⟩, db)
    else
      let newNotes := fun (r : ApptRow) =>
        match reason with
        | some t => if t.isEmpty then r.notes else some t
        | none => r.notes
      (⟨200, "Appointment cancelled successfully"⟩,
       db.map (fun r => if r.id == idp then
         { r with status := "cancelled", notes := newNotes r } else r))

/-- The read `req.user.id` at line 120 of src/routes/appointments.js
(`const patient_id = req.user.id`). -/
def bookingPatientId (ctx : List (String × JsVal)) : Option JsVal :=
  jsGet ctx "id"

/-- A role comparison `req.user.role === r` as the appointment routes
write it (lines 14, 69, 76, 290, 297, 350 of src/routes/appointments.js);
against an absent `role` property it is false. -/
def roleIs (ctx : List (String × JsVal)) (r : String) : Bool :=
  jsGet ctx "role" == some (JsVal.str r)

/-- The branch condition of the appointment listing `GET /`
(line 14: `req.user.role === "doctor"` selects the doctor query,
anything else the patient/admin query). -/
def doctorListingBranch (ctx : List (String × JsVal)) : Bool :=
  roleIs ctx "doctor"

/-- The booking route as wired in the source: by the time the handler body
runs, `isISO8601().toDate()` has replaced `req.body.appointment_date` with
a Date object, and `patient_id` is read from `req.user.id` on the identity
context `ctx` attached by the middleware. -/
def bookAppointmentRoute (now dateValue : Int)
    (ctx : List (String × JsVal)) (doctors : List DoctorRow)
    (users : List UserRow) (db : List ApptRow) (doctor_id : Nat)
    (dateTime : Int) (reason : String) : BookResult :=
  bookAppointment now dateValue (jsNum (bookingPatientId ctx)) doctors users
    db doctor_id (BodyDate.dateObj dateTime) reason

/-- The cancel handler `PUT /:id/cancel` as wired: the role and id reads
go through the attached `req.user` object (`jsGet ctx "role"`,
`jsGet ctx "id"`).  The strict comparison
`appointment.patient_id !== req.user.id` is true whenever the id field is
absent, and the doctor branch binds `req.user.id` into its query, a throw
on undefined mapped to the catch-all 500; both role guards are skipped
when the role field holds neither "patient" nor "doctor". -/
def cancelAppointmentWired (db : List ApptRow) (doctors : List DoctorRow)
    (ctx : List (String × JsVal)) (idp : Nat) (reason : Option String) :
    Resp × List ApptRow :=
  match db.find? (fun a => a.id == idp) with
  | none => (⟨404, "Appointment not found"⟩, db)
  | some appt =>
    if appt.status == "cancelled" then
      (⟨400, "Appointment is already cancelled"⟩, db)
    else if appt.status == "completed" then
      (⟨400, "Cannot cancel completed appointment"⟩, db)
    else if roleIs ctx "patient" &&
        !(jsGet ctx "id" == some (JsVal.num appt.patient_id)) then
      (⟨403, "Access denied. You can only cancel your own appointments."⟩,
       db)
    else
      let updated := db.map (fun r => if r.id == idp then
        { r with status := "cancelled",
                 notes := match reason with
                   | some t => if t.isEmpty then r.notes else some t
                   | none => r.notes } else r)
      if roleIs ctx "doctor" then
        match jsNum (jsGet ctx "id") with
        | none => (⟨500, "Failed to cancel appointment"⟩, db)
        | some uid =>
          if (doctors.find? (fun d => d.id == appt.doctor_id &&
              d.user_id == uid)).isNone then
            (⟨403,
              "Access denied. You can only cancel your own appointments."⟩,
             db)
          else
            (⟨200, "Appointment cancelled successfully"⟩, updated)
      else
        (⟨200, "Appointment cancelled successfully"⟩, updated)

/-- C1: for every identity context and role allow-list, the Role Gate
succeeds iff the role of the context is a member of the allow-list, and
otherwise fails with Forbidden (HTTP 403): every role inside the
allow-list is permitted and every role outside it is denied. -/
theorem claim_C1 (role : String) (allowedRoles : List String) :
    (authorize role allowedRoles = AuthzResult.ok ↔ role ∈ allowedRoles) ∧
    (authorize role allowedRoles = AuthzResult.forbidden 403 ↔
      role ∉ allowedRoles) := by
  unfold authorize
  by_cases h : role ∈ allowedRoles <;>
    simp [List.contains, List.elem_iff, h]

/-- Witness for C1 at a concrete allow-list: admin passes, patient is
denied with 403. -/
theorem claim_C1_witness :
    authorize "admin" ["doctor", "admin"] = AuthzResult.ok ∧
    authorize "patient" ["doctor", "admin"] = AuthzResult.forbidden 403 :=
  ⟨(claim_C1 "admin" ["doctor", "admin"]).1.mpr (by decide),
   (claim_C1 "patient" ["doctor", "admin"]).2.mpr (by decide)⟩

/-- C2 (refuted by the code): at the failing input, a request with no
Authorization header, the middleware answers with the generic 500
Authentication error response for every verifier and every user table:
the property access on the undefined header throws before the 401
MissingToken branch can run. -/
theorem claim_C2_failing (verify : String → VerifyResult)
    (users : List UserRow) :
    authenticateToken none verify users =
      AuthResult.resp 500 "Authentication error" := rfl

/-- C8: a token issued at login expires 24 hours after issuance, a token
issued at registration expires 7 days after issuance, and the two sign
call sites use no other lifetime. -/
theorem claim_C8 (userId iat : Nat) (email type : String) :
    (loginToken userId email type iat).exp = iat + 24 * 60 * 60 ∧
    (registerToken userId email type iat).exp = iat + 7 * 24 * 60 * 60 ∧
    tokenLifetimesUsed = [7 * 24 * 60 * 60, 24 * 60 * 60] ∧
    (∀ l ∈ tokenLifetimesUsed,
      l = registerTokenExpiresInSeconds ∨ l = loginTokenExpiresInSeconds) :=
  ⟨rfl, rfl, rfl, by decide⟩

/-- Witness for C8 at issuance instant 0: the login token expires at
86400 seconds, the registration token at 604800 seconds. -/
theorem claim_C8_witness :
    (loginToken 1 "e" "t" 0).exp = 86400 ∧
    (registerToken 1 "e" "t" 0).exp = 604800 := by
  have h := claim_C8 1 0 "e" "t"
  exact ⟨h.1, h.2.1⟩

/-- C9: the middleware takes index 2 of the Authorization header split on
a single space, so a header of exactly two space-separated parts (the
standard Bearer form) yields no token and the request is rejected 401
Access token required, for every verifier (verification is never
attempted) and every user table. -/
theorem claim_C9 (h : String) (verify : String → VerifyResult)
    (users : List UserRow) (hparts : (jsSplit h ' ').length = 2) :
    authenticateToken (some h) verify users =
      AuthResult.resp 401 "Access token required" := by
  have h2 : (jsSplit h ' ')[2]? = none := by
    rw [List.getElem?_eq_none]
    omega
  simp [authenticateToken, h2]

/-- Witness for C9 at the standard header shape. -/
theorem claim_C9_witness :
    (jsSplit "Bearer abc" ' ').length = 2 ∧
    authenticateToken (some "Bearer abc") (fun _ => VerifyResult.errOther) []
      = AuthResult.resp 401 "Access token required" :=
  ⟨by decide,
   claim_C9 "Bearer abc" (fun _ => VerifyResult.errOther) [] (by decide)⟩

/-- C3 (refuted by the code): the fully valid booking of the claim, an
active doctor with hours 09:00 to 17:00 and an authenticated patient
booking 10:00 one week ahead with no conflicts, is answered 500 Failed to
book appointment through the real wiring, because the sanitized Date has
no split method; and even with a raw-string date the absent req.user.id
is an undefined bind parameter, again 500.  The 201 path is unreachable. -/
theorem claim_C3_failing :
    bookAppointmentRoute 0 604800
        (mkUserCtx ⟨1, "alice@x", "Alice", "patient"⟩)
        [⟨7, 70, "Dr House", "derm", "doc@x", "09:00:00", "17:00:00", true⟩]
        [⟨1, "alice@x", "Alice", "patient"⟩] [] 7 604800 "checkup" =
      ⟨500, "Failed to book appointment", [], none⟩ ∧
    bookAppointment 0 604800
        (jsNum (bookingPatientId (mkUserCtx ⟨1, "alice@x", "Alice", "patient"⟩)))
        [⟨7, 70, "Dr House", "derm", "doc@x", "09:00:00", "17:00:00", true⟩]
        [⟨1, "alice@x", "Alice", "patient"⟩] [] 7
        (BodyDate.str "2025-10-20T10:00:00") "checkup" =
      ⟨500, "Failed to book appointment", [], none⟩ :=
  ⟨rfl, rfl⟩

/-- C4 (refuted by the code): the first two checks fire their specific
errors, but every booking that passes them is answered 500 at the hour
extraction on the sanitized Date, with or without a conflicting row, so
OutsideWorkingHours, SlotAlreadyBooked and PatientDoubleBooking are never
produced. -/
theorem claim_C4_failing :
    bookAppointmentRoute 0 604800
        (mkUserCtx ⟨1, "alice@x", "Alice", "patient"⟩) []
        [⟨1, "alice@x", "Alice", "patient"⟩] [] 7 604800 "r" =
      ⟨404, "Doctor not found", [], none⟩ ∧
    bookAppointmentRoute 0 (-1)
        (mkUserCtx ⟨1, "alice@x", "Alice", "patient"⟩)
        [⟨7, 70, "Dr House", "derm", "doc@x", "09:00:00", "17:00:00", true⟩]
        [⟨1, "alice@x", "Alice", "patient"⟩] [] 7 (-1) "r" =
      ⟨400, "Appointment must be scheduled for a future date", [], none⟩ ∧
    bookAppointmentRoute 0 100
        (mkUserCtx ⟨1, "alice@x", "Alice", "patient"⟩)
        [⟨7, 70, "Dr House", "derm", "doc@x", "09:00:00", "17:00:00", true⟩]
        [⟨1, "alice@x", "Alice", "patient"⟩] [] 7 100 "r" =
      ⟨500, "Failed to book appointment", [], none⟩ ∧
    bookAppointmentRoute 0 100
        (mkUserCtx ⟨1, "alice@x", "Alice", "patient"⟩)
        [⟨7, 70, "Dr House", "derm", "doc@x", "09:00:00", "17:00:00", true⟩]
        [⟨1, "alice@x", "Alice", "patient"⟩]
        [⟨1, 2, 7, "2025-10-21T08:00:00", "x", "scheduled", none⟩] 7 100
        "r" =
      ⟨500, "Failed to book appointment",
       [⟨1, 2, 7, "2025-10-21T08:00:00", "x", "scheduled", none⟩], none⟩ :=
  ⟨rfl, rfl, rfl, rfl⟩

/-- C6 (refuted by the code): the cancel handler reads req.user.role, a
field the middleware never attaches (it attaches type), so both role
guards are skipped: an authenticated caller whose user row has type
patient and who does not own the scheduled appointment cancels it
successfully with 200 instead of the claimed 403.  The terminal-status
rejection half of the claim does hold. -/
theorem claim_C6_failing :
    authenticateToken (some "Bearer x tok")
        (fun _ => VerifyResult.ok ⟨9, "mallory@x", "patient"⟩)
        [⟨9, "mallory@x", "Mallory", "patient"⟩] =
      AuthResult.ok (mkUserCtx ⟨9, "mallory@x", "Mallory", "patient"⟩) ∧
    cancelAppointmentWired
        [⟨1, 2, 3, "2025-10-20T10:00:00", "r", "scheduled", none⟩] []
        (mkUserCtx ⟨9, "mallory@x", "Mallory", "patient"⟩) 1 none =
      (⟨200, "Appointment cancelled successfully"⟩,
       [⟨1, 2, 3, "2025-10-20T10:00:00", "r", "cancelled", none⟩]) ∧
    cancelAppointmentWired
        [⟨1, 2, 3, "2025-10-20T10:00:00", "r", "cancelled", none⟩] []
        (mkUserCtx ⟨9, "mallory@x", "Mallory", "patient"⟩) 1 none =
      (⟨400, "Appointment is already cancelled"⟩,
       [⟨1, 2, 3, "2025-10-20T10:00:00", "r", "cancelled", none⟩]) :=
  ⟨rfl, rfl, rfl⟩

/-- Counterexample to C5 as stated: an appointment in the terminal status
completed is moved back to scheduled by the generic status-update
operation, which succeeds with 200. -/
theorem claim_C5_counterexample :
    ([⟨1, 2, 3, "2025-01-01T10:00:00", "r", "completed", none⟩] :
        List ApptRow).find? (fun x => x.id == 1) =
      some ⟨1, 2, 3, "2025-01-01T10:00:00", "r", "completed", none⟩ ∧
    updateStatus [⟨1, 2, 3, "2025-01-01T10:00:00", "r", "completed", none⟩] 1
        (some "scheduled") =
      (⟨200, "Appointment status updated successfully"⟩,
       [⟨1, 2, 3, "2025-01-01T10:00:00", "r", "scheduled", none⟩]) :=
  ⟨rfl, rfl⟩

/-- C5 amended: the cancel operation keeps terminal statuses terminal
(rejecting with 400 and leaving the table unchanged), but the generic
status-update operation overwrites the status of any existing appointment
with any of scheduled, completed or canceled regardless of the current
status, so terminality is not enforced API-wide. -/
theorem claim_C5 (db : List ApptRow) (doctors : List DoctorRow)
    (idp callerId : Nat) (callerRole s : String) (a : ApptRow)
    (reason : Option String)
    (hs : s ∈ ["scheduled", "completed", "canceled"])
    (hfind : db.find? (fun x => x.id == idp) = some a) :
    ((a.status = "cancelled" ∨ a.status = "completed") →
      (cancelAppointment db doctors callerRole callerId idp reason).1.status
          = 400 ∧
      (cancelAppointment db doctors callerRole callerId idp reason).2 = db) ∧
    ((updateStatus db idp (some s)).1 =
        ⟨200, "Appointment status updated successfully"⟩ ∧
     ∀ x ∈ (updateStatus db idp (some s)).2, x.id = idp → x.status = s) := by
  have hmem := List.mem_of_find?_eq_some hfind
  have hidp : (a.id == idp) = true := by
    have := List.find?_some hfind
    simpa using this
  have hpos : 0 < db.countP (fun r => r.id == idp) :=
    List.countP_pos_iff.mpr ⟨a, hmem, hidp⟩
  have hne0 : (db.countP (fun r => r.id == idp) == 0) = false := by
    simp only [beq_eq_false_iff_ne]
    omega
  have hcases : s = "scheduled" ∨ s = "completed" ∨ s = "canceled" := by
    simpa using hs
  have heq : updateStatus db idp (some s) =
      (⟨200, "Appointment status updated successfully"⟩,
       db.map (fun r => if r.id == idp then { r with status := s } else r)) := by
    rcases hcases with h | h | h <;> simp [updateStatus, hne0, h]
  constructor
  · intro hterm
    unfold cancelAppointment
    rw [hfind]
    rcases hterm with h | h <;> simp [h]
  · rw [heq]
    refine ⟨rfl, ?_⟩
    intro x hx hxid
    rcases List.mem_map.mp hx with ⟨r, hr, rfl⟩
    by_cases hc : r.id = idp
    · simp [hc]
    · simp [hc] at hxid

/-- Witness for C5 amended: a completed appointment is rewritten to
scheduled by the status-update operation. -/
theorem claim_C5_witness :
    (updateStatus [⟨1, 2, 3, "d", "r", "completed", none⟩] 1
        (some "scheduled")).1 =
      ⟨200, "Appointment status updated successfully"⟩ ∧
    ∀ x ∈ (updateStatus [⟨1, 2, 3, "d", "r", "completed", none⟩] 1
        (some "scheduled")).2, x.id = 1 → x.status = "scheduled" := by
  have h := claim_C5 [⟨1, 2, 3, "d", "r", "completed", none⟩] [] 1 9 "admin"
    "scheduled" ⟨1, 2, 3, "d", "r", "completed", none⟩ none (by decide)
    (by decide)
  exact h.2

/-- Counterexample to C7 as stated: two credential stores that both hold a
row for the user id of the token but differ in the type (role) column make
the middleware attach different identity contexts, so the attached claims
come from the re-fetched row and not from the verified token. -/
theorem claim_C7_counterexample :
    authenticateToken (some "Bearer x tok")
        (fun _ => VerifyResult.ok ⟨1, "token@x", "patient"⟩)
        [⟨1, "row@x", "Rowan", "patient"⟩] =
      AuthResult.ok (mkUserCtx ⟨1, "row@x", "Rowan", "patient"⟩) ∧
    authenticateToken (some "Bearer x tok")
        (fun _ => VerifyResult.ok ⟨1, "token@x", "patient"⟩)
        [⟨1, "row@x", "Rowan", "admin"⟩] =
      AuthResult.ok (mkUserCtx ⟨1, "row@x", "Rowan", "admin"⟩) ∧
    jsGet (mkUserCtx ⟨1, "row@x", "Rowan", "patient"⟩) "type" ≠
      jsGet (mkUserCtx ⟨1, "row@x", "Rowan", "admin"⟩) "type" :=
  ⟨rfl, rfl, by decide⟩

/-- C7 amended: the re-fetch both confirms existence, failing with 401
User not found when no row matches, and supplies the attached claims: the
userId, email, name and type fields of the identity context are copied
from the re-fetched row, and only the lookup key comes from the verified
token. -/
theorem claim_C7 (h token : String) (verify : String → VerifyResult)
    (users : List UserRow) (payload : TokenPayload)
    (htok : (jsSplit h ' ')[2]? = some token)
    (hne : token.data.isEmpty = false)
    (hver : verify token = VerifyResult.ok payload) :
    (users.find? (fun u => u.id == payload.userId) = none →
      authenticateToken (some h) verify users =
        AuthResult.resp 401 "User not found") ∧
    (∀ u, users.find? (fun u => u.id == payload.userId) = some u →
      authenticateToken (some h) verify users = AuthResult.ok (mkUserCtx u) ∧
      jsGet (mkUserCtx u) "userId" = some (JsVal.num u.id) ∧
      jsGet (mkUserCtx u) "email" = some (JsVal.str u.email) ∧
      jsGet (mkUserCtx u) "name" = some (JsVal.str u.name) ∧
      jsGet (mkUserCtx u) "type" = some (JsVal.str u.type)) := by
  constructor
  · intro hnone
    simp [authenticateToken, htok, hne, hver, hnone]
  · intro u hu
    refine ⟨by simp [authenticateToken, htok, hne, hver, hu], ?_, ?_, ?_, ?_⟩
      <;> rfl

/-- Witness for C7 amended: with a store whose row for the token user has
type doctor, the middleware attaches type doctor. -/
theorem claim_C7_witness :
    authenticateToken (some "Bearer x tok")
        (fun _ => VerifyResult.ok ⟨1, "token@x", "patient"⟩)
        [⟨1, "a@x", "Alice", "doctor"⟩] =
      AuthResult.ok (mkUserCtx ⟨1, "a@x", "Alice", "doctor"⟩) ∧
    jsGet (mkUserCtx ⟨1, "a@x", "Alice", "doctor"⟩) "type" =
      some (JsVal.str "doctor") := by
  have hc := claim_C7 "Bearer x tok" "tok"
    (fun _ => VerifyResult.ok ⟨1, "token@x", "patient"⟩)
    [⟨1, "a@x", "Alice", "doctor"⟩] ⟨1, "token@x", "patient"⟩
    (by decide) (by decide) rfl
  have h2 := hc.2 ⟨1, "a@x", "Alice", "doctor"⟩ (by decide)
  exact ⟨h2.1, h2.2.2.2.2⟩

/-- Inversion: the middleware only calls next with the four-field context
built from the re-fetched user row. -/
theorem auth_ok_inv (header : Option String) (verify : String → VerifyResult)
    (users : List UserRow) (ctx : List (String × JsVal))
    (hok : authenticateToken header verify users = AuthResult.ok ctx) :
    ∃ u : UserRow, ctx = mkUserCtx u := by
  unfold authenticateToken at hok
  repeat' split at hok
  all_goals injection hok
  all_goals rename_i h2
  all_goals exact ⟨_, h2.symm⟩

/-- C10: the identity context attached by the middleware has exactly the
fields userId, email, name, type and none named id or role, so the
appointment handlers read an absent patient id and every role-conditional
branch behaves as if the role of the caller were none of patient, doctor
or admin. -/
theorem claim_C10 (header : Option String) (verify : String → VerifyResult)
    (users : List UserRow) (ctx : List (String × JsVal))
    (hok : authenticateToken header verify users = AuthResult.ok ctx) :
    ctx.map Prod.fst = ["userId", "email", "name", "type"] ∧
    jsGet ctx "id" = none ∧
    jsGet ctx "role" = none ∧
    bookingPatientId ctx = none ∧
    doctorListingBranch ctx = false ∧
    roleIs ctx "patient" = false ∧
    roleIs ctx "doctor" = false ∧
    roleIs ctx "admin" = false := by
  obtain ⟨u, rfl⟩ := auth_ok_inv header verify users ctx hok
  exact ⟨rfl, rfl, rfl, rfl, rfl, rfl, rfl, rfl⟩

/-- Witness for C10 at a concrete authenticated patient. -/
theorem claim_C10_witness :
    authenticateToken (some "Bearer x tok")
        (fun _ => VerifyResult.ok ⟨1, "e@x", "patient"⟩)
        [⟨1, "a@x", "Alice", "patient"⟩] =
      AuthResult.ok (mkUserCtx ⟨1, "a@x", "Alice", "patient"⟩) ∧
    jsGet (mkUserCtx ⟨1, "a@x", "Alice", "patient"⟩) "role" = none ∧
    bookingPatientId (mkUserCtx ⟨1, "a@x", "Alice", "patient"⟩) = none ∧
    roleIs (mkUserCtx ⟨1, "a@x", "Alice", "patient"⟩) "patient" = false := by
  have h := claim_C10 (some "Bearer x tok")
    (fun _ => VerifyResult.ok ⟨1, "e@x", "patient"⟩)
    [⟨1, "a@x", "Alice", "patient"⟩]
    (mkUserCtx ⟨1, "a@x", "Alice", "patient"⟩) rfl
  exact ⟨rfl, h.2.2.1, h.2.2.2.1, h.2.2.2.2.2.1⟩

end MedCare
